import Mathlib

/-!
Shallow embedding of `roku/core.py` (python-roku), the client library for the
Roku External Control Protocol.  HTTP effects are modelled as the list of
requests a call issues (assuming the transport succeeds); a Python `raise` is
modelled by an explicit error result, so an errored call carries the requests
issued before the raise (none, when the raise precedes every `_post`/`_get`).
Python object identity of `Roku` instances (the `app.roku != self` test uses
identity, since `Roku` defines no `__eq__`) is modelled by a distinguishing
`oid` field: distinct runtime objects get distinct `oid`s.
-/

namespace PythonRoku

/-- Python values that flow through the modelled code: `None`, ints and
strings (ids, versions, names, sensor arguments, request parameters). -/
inductive PyVal
  | none
  | num (n : Int)
  | str (s : String)
deriving DecidableEq

/-- Python `str(v)` on the values of `PyVal` (`str(None) = "None"`). -/
def pyStr : PyVal → String
  | PyVal.none => "None"
  | PyVal.num n => toString n
  | PyVal.str s => s

/-- Exceptions raised by `roku/core.py`: `RokuException(msg)`,
`AttributeError(msg)`, `ValueError(msg)`, and a generic marker for Python
runtime type errors outside the modelled behaviour. -/
inductive PyErr
  | rokuException (msg : String)
  | attributeError (msg : String)
  | valueError (msg : String)
  | typeError
deriving DecidableEq

/-- Result of a modelled call: a normal return value, or a raised exception. -/
inductive PyResult (α : Type)
  | ok (val : α)
  | error (e : PyErr)
deriving DecidableEq

/-- HTTP method of an issued request. -/
inductive Method
  | GET
  | POST
deriving DecidableEq

/-- One HTTP request issued by the library: method, path, and the `params`
keyword argument handed to the HTTP client (empty when absent). -/
structure Request where
  method : Method
  path : String
  params : List (String × PyVal)
deriving DecidableEq

/-- `ECP_KEYS` from `core.py`: command name → protocol key token. -/
def ECP_KEYS : List (String × String) :=
  [("home", "Home"), ("reverse", "Rev"), ("forward", "Fwd"), ("play", "Play"),
   ("select", "Select"), ("left", "Left"), ("right", "Right"), ("down", "Down"),
   ("up", "Up"), ("back", "Back"), ("replay", "InstantReplay"), ("info", "Info"),
   ("backspace", "Backspace"), ("search", "Search"), ("enter", "Enter"),
   ("literal", "Lit")]

/-- `ROKUTV_KEYS` from `core.py`: extra commands a `RokuTV` supports. -/
def ROKUTV_KEYS : List (String × String) :=
  [("channel_down", "ChannelDown"), ("channel_up", "ChannelUp"),
   ("mute", "VolumeMute"), ("power", "Power"), ("power_on", "PowerOn"),
   ("power_off", "PowerOff"), ("volume_down", "VolumeDown"),
   ("volume_up", "VolumeUp")]

/-- `SENSORS` from `core.py`. -/
def SENSORS : List String :=
  ["acceleration", "magnetic", "orientation", "rotation"]

/-- A `Roku` device instance.  `oid` models Python object identity (distinct
instances have distinct `oid`); `supported_keys` is the instance's mutable
command table, as an association list with first-match lookup (its keys are
distinct, so this coincides with Python dict lookup). -/
structure Roku where
  oid : Nat
  host : String
  port : Nat
  supported_keys : List (String × String)
deriving DecidableEq

/-- `Roku.__init__`: the command table starts as a copy of `ECP_KEYS`. -/
def Roku.init (oid : Nat) (host : String) (port : Nat) : Roku :=
  ⟨oid, host, port, ECP_KEYS⟩

/-- `RokuTV.__init__`: `Roku.__init__` followed by
`supported_keys.update(ROKUTV_KEYS)`; the two key sets are disjoint, so the
updated dict is the concatenation. -/
def RokuTV.init (oid : Nat) (host : String) (port : Nat) : Roku :=
  ⟨oid, host, port, ECP_KEYS ++ ROKUTV_KEYS⟩

/-- An `Application` record as stored by `Application.__init__`:
`self.id = str(id)`, while `version`, `name` and the device back-reference
`roku` are stored unchanged. -/
structure Application where
  id : String
  version : PyVal
  name : PyVal
  roku : Option Roku
deriving DecidableEq

/-- `Application.__init__(id, version, name, roku)`. -/
def Application.init (id version name : PyVal) (roku : Option Roku) : Application :=
  ⟨pyStr id, version, name, roku⟩

/-- `Application.__eq__`: `isinstance(other, Application)` (here: typing) and
`(self.id, self.version) == (other.id, other.version)`. -/
def Application.eq (self other : Application) : Bool :=
  decide ((self.id, self.version) = (other.id, other.version))

/-- The HTTP response the device sends back for one request. -/
structure HttpResponse where
  status : Nat
  content : String
deriving DecidableEq

/-- `Roku._call(method, path, ...)` applied to the response the device
returns: rejects methods other than GET/POST before any request, raises
`RokuException(resp.content)` when the status is not 200, otherwise returns
the body. -/
def Roku.call (self : Roku) (method : String) (path : String)
    (resp : HttpResponse) : PyResult String :=
  if method ≠ "GET" ∧ method ≠ "POST" then
    .error (.valueError "only GET and POST HTTP methods are supported")
  else if resp.status ≠ 200 then
    .error (.rokuException resp.content)
  else
    .ok resp.content

/-- `Roku._get(path)` = `self._call('GET', path)`. -/
def Roku.get (self : Roku) (path : String) (resp : HttpResponse) : PyResult String :=
  self.call "GET" path resp

/-- `Roku._post(path)` = `self._call('POST', path)`. -/
def Roku.post (self : Roku) (path : String) (resp : HttpResponse) : PyResult String :=
  self.call "POST" path resp

/-- The sensor parameter keys `['%s.%s' % (name, axis) for axis in ('x','y','z')]`. -/
def sensorKeys (name : String) : List String :=
  ["x", "y", "z"].map (fun axis => name ++ "." ++ axis)

/-- `Roku.__getattr__(name)` followed by calling the returned `command(*args)`
(Python consults `__getattr__` only for names not found by normal attribute
lookup).  Returns the requests issued, or the exception raised; the guard
raises `AttributeError` before any request.  The inner `none => typeError`
arm is unreachable (the guard ensures `name` is a key), and literal called
with a non-string first argument is a Python runtime error, marked
`typeError`. -/
def Roku.getattr_invoke (self : Roku) (name : String) (args : List PyVal) :
    PyResult (List Request) :=
  if (self.supported_keys.lookup name) = Option.none ∧ ¬ name ∈ SENSORS then
    .error (.attributeError (name ++ " is not a valid key or sensor"))
  else if name ∈ SENSORS then
    .ok [⟨Method.POST, "/input", (sensorKeys name).zip args⟩]
  else
    match self.supported_keys.lookup name with
    | Option.none => .error .typeError
    | some tok =>
      if name = "literal" then
        match args with
        | PyVal.str s :: _ =>
          .ok (s.data.map (fun c =>
            ⟨Method.POST, "/keypress/" ++ tok ++ "_" ++ (Char.toUpper c).toString, []⟩))
        | _ => .error .typeError
      else
        .ok [⟨Method.POST, "/keypress/" ++ tok, []⟩]

/-- `Roku.launch(app)`: `if app.roku and app.roku != self: raise` (the `!=`
is Python object identity, modelled by `oid`), else
`self._post('/launch/%s' % app.id, params={'contentID': app.id})`. -/
def Roku.launch (self : Roku) (app : Application) : PyResult (List Request) :=
  match app.roku with
  | some r =>
    if r.oid ≠ self.oid then
      .error (.rokuException "this app belongs to another Roku")
    else
      .ok [⟨Method.POST, "/launch/" ++ app.id, [("contentID", PyVal.str app.id)]⟩]
  | Option.none =>
    .ok [⟨Method.POST, "/launch/" ++ app.id, [("contentID", PyVal.str app.id)]⟩]

/-- `Roku.store(app)`: unconditional
`self._post('/launch/11', params={'contentID': app.id})`. -/
def Roku.store (self : Roku) (app : Application) : PyResult (List Request) :=
  .ok [⟨Method.POST, "/launch/11", [("contentID", PyVal.str app.id)]⟩]

/-- `Roku.icon(app)`: `self._get('/query/icon/%s' % app.id)`. -/
def Roku.icon (self : Roku) (app : Application) : PyResult (List Request) :=
  .ok [⟨Method.GET, "/query/icon/" ++ app.id, []⟩]

/-- `Application.launch`: `if self.roku: self.roku.launch(self)`; does
nothing when the back-reference is `None`. -/
def Application.launch (self : Application) : PyResult (List Request) :=
  match self.roku with
  | some r => r.launch self
  | Option.none => .ok []

/-- `Application.store`: `if self.roku: self.roku.store(self)`. -/
def Application.store (self : Application) : PyResult (List Request) :=
  match self.roku with
  | some r => r.store self
  | Option.none => .ok []

/-- `Application.icon` property: `if self.roku: return self.roku.icon(self)`. -/
def Application.icon (self : Application) : PyResult (List Request) :=
  match self.roku with
  | some r => r.icon self
  | Option.none => .ok []

/-- An `app` or `screensaver` XML element of a `/query/active-app` response:
`get('id')`, `get('version')` and `.text` each yield a string or `None`. -/
structure AppElement where
  id : Option String
  version : Option String
  text : Option String
deriving DecidableEq

/-- A parsed `/query/active-app` response body: `root.find('screensaver')`
and `root.find('app')`, each `None` when the element is absent. -/
structure ActiveAppResponse where
  screensaver : Option AppElement
  app : Option AppElement
deriving DecidableEq

/-- An XML attribute or text lookup result as a Python value. -/
def optToPy : Option String → PyVal
  | Option.none => PyVal.none
  | some s => PyVal.str s

/-- `Roku.current_app` applied to a parsed response: prefer the
`screensaver` element, fall back to `app`, return `None` when neither is
present, else build an `Application` with `roku=self`. -/
def Roku.current_app (self : Roku) (resp : ActiveAppResponse) : Option Application :=
  let app_node :=
    match resp.screensaver with
    | some n => some n
    | Option.none => resp.app
  match app_node with
  | Option.none => Option.none
  | some n =>
    some (Application.init (optToPy n.id) (optToPy n.version) (optToPy n.text) (some self))

/-- Hexadecimal digit (uppercase) for a value below 16. -/
def hexDigit (n : Nat) : Char :=
  if n < 10 then Char.ofNat (48 + n) else Char.ofNat (55 + n)

/-- Modelled from the spec: characters that URL path encoding leaves
untouched, per RFC 3986 path rules — unreserved characters, sub-delims
(including the apostrophe, code 39), and `:` `@`. -/
def isUrlPathSafe (c : Char) : Bool :=
  c.isAlphanum ||
    ["-", ".", "_", "~", "!", "$", "&", "(", ")", "*", "+", ",", ";", "=",
     ":", "@"].contains c.toString ||
    c.toNat = 39

/-- Modelled from the spec: the claim's notion of URL-path-encoding a
(ASCII) string — percent-encode every byte that is not safe in a URI path.
`roku/core.py` itself performs no such encoding; this definition exists only
to compare the spec's wording with the source behaviour. -/
def urlPathEncode (s : String) : String :=
  String.join (s.data.map (fun c =>
    if isUrlPathSafe c then c.toString
    else "%" ++ (hexDigit (c.toNat / 16)).toString ++ (hexDigit (c.toNat % 16)).toString))

/-- A base `Roku` device instance. -/
def baseRoku : Roku := Roku.init 0 "192.168.1.2" 8060

/-- A `RokuTV` device instance. -/
def tvRoku : Roku := RokuTV.init 1 "192.168.1.3" 8060

/-- A second, distinct base `Roku` device instance. -/
def otherRoku : Roku := Roku.init 2 "192.168.1.4" 8060

/-- C1: `Roku.launch(app)` raises the cross-device `RokuException` — issuing
no HTTP request — when `app.roku` is set and is a different device instance
than `self`; otherwise it issues exactly one POST to `/launch/<app.id>` with
parameter `contentID=<app.id>`. -/
theorem launch_cross_device_spec (self : Roku) (app : Application) :
    (∀ r, app.roku = some r → r.oid ≠ self.oid →
      self.launch app = .error (.rokuException "this app belongs to another Roku")) ∧
    ((app.roku = Option.none ∨ ∃ r, app.roku = some r ∧ r.oid = self.oid) →
      self.launch app =
        .ok [⟨Method.POST, "/launch/" ++ app.id, [("contentID", PyVal.str app.id)]⟩]) := by
  constructor
  · intro r hr hne
    simp [Roku.launch, hr, hne]
  · rintro (h | ⟨r, hr, hoid⟩)
    · simp [Roku.launch, h]
    · simp [Roku.launch, hr, hoid]

/-- Witness for C1: a cross-device app is rejected by `baseRoku`, an
unowned app is launched with one POST. -/
theorem launch_cross_device_spec_witness :
    baseRoku.launch
        (Application.init (PyVal.str "12") (PyVal.str "1") (PyVal.str "App") (some otherRoku))
      = .error (.rokuException "this app belongs to another Roku") ∧
    baseRoku.launch
        (Application.init (PyVal.str "12") (PyVal.str "1") (PyVal.str "App") Option.none)
      = .ok [⟨Method.POST, "/launch/12", [("contentID", PyVal.str "12")]⟩] :=
  ⟨(launch_cross_device_spec baseRoku _).1 otherRoku rfl (by decide),
   (launch_cross_device_spec baseRoku _).2 (Or.inl rfl)⟩

/-- C9: `Roku.store(app)` performs no cross-device check: for every app —
including, concretely, one whose back-reference is a different device
instance — it issues one POST to `/launch/11` with `contentID=<app.id>` and
never raises. -/
theorem store_no_cross_device_spec :
    (∀ (self : Roku) (app : Application),
      self.store app =
        .ok [⟨Method.POST, "/launch/11", [("contentID", PyVal.str app.id)]⟩]) ∧
    baseRoku.store
        (Application.init (PyVal.str "12") (PyVal.str "1") (PyVal.str "App") (some otherRoku))
      = .ok [⟨Method.POST, "/launch/11", [("contentID", PyVal.str "12")]⟩] :=
  ⟨fun _ _ => rfl, rfl⟩

/-- C10: when an `Application`'s back-reference is `None`,
`Application.launch`, `Application.store` and `Application.icon` issue no
HTTP request and raise no error (the Python methods fall through and return
`None`). -/
theorem null_backref_noop_spec (a : Application) (h : a.roku = Option.none) :
    a.launch = .ok [] ∧ a.store = .ok [] ∧ a.icon = .ok [] := by
  simp [Application.launch, Application.store, Application.icon, h]

/-- Witness for C10 at a concrete unowned app. -/
theorem null_backref_noop_spec_witness :
    (Application.init (PyVal.str "12") (PyVal.str "1") (PyVal.str "App") Option.none).launch
        = .ok [] ∧
    (Application.init (PyVal.str "12") (PyVal.str "1") (PyVal.str "App") Option.none).store
        = .ok [] ∧
    (Application.init (PyVal.str "12") (PyVal.str "1") (PyVal.str "App") Option.none).icon
        = .ok [] :=
  null_backref_noop_spec _ rfl

/-- C8: `Application.__eq__` compares exactly the stored `(id, version)`
pair, independent of name and back-reference; since the constructor stores
`str(id)`, apps built with id `12` and id `"12"` (same version) are equal,
while versions are compared without coercion (`1` vs `"1"` differ). -/
theorem application_eq_spec :
    (∀ a b : Application,
        Application.eq a b = true ↔ (a.id = b.id ∧ a.version = b.version)) ∧
    Application.eq (Application.init (PyVal.num 12) (PyVal.num 1) (PyVal.str "A") Option.none)
      (Application.init (PyVal.str "12") (PyVal.num 1) (PyVal.str "B") (some baseRoku)) = true ∧
    Application.eq (Application.init (PyVal.str "7") (PyVal.num 1) (PyVal.str "A") Option.none)
      (Application.init (PyVal.str "7") (PyVal.str "1") (PyVal.str "A") Option.none) = false := by
  refine ⟨?_, by decide, by decide⟩
  intro a b
  simp [Application.eq, Prod.ext_iff]

/-- Witness for C8: the characterisation applied at two apps differing only
in name and back-reference. -/
theorem application_eq_spec_witness :
    Application.eq (Application.init (PyVal.str "5") (PyVal.num 2) (PyVal.str "X") Option.none)
      (Application.init (PyVal.str "5") (PyVal.num 2) (PyVal.str "Y") (some tvRoku)) = true :=
  (application_eq_spec.1 _ _).mpr ⟨rfl, rfl⟩

/-- C7: every GET or POST through `_get`/`_post`/`_call` raises
`RokuException` carrying the raw response body when the status is not 200,
and returns the body when the status is 200. -/
theorem transport_status_spec (self : Roku) (path : String) (resp : HttpResponse) :
    (resp.status ≠ 200 →
      self.get path resp = .error (.rokuException resp.content) ∧
      self.post path resp = .error (.rokuException resp.content)) ∧
    (resp.status = 200 →
      self.get path resp = .ok resp.content ∧
      self.post path resp = .ok resp.content) := by
  constructor
  · intro h
    constructor <;> simp [Roku.get, Roku.post, Roku.call, h]
  · intro h
    constructor <;> simp [Roku.get, Roku.post, Roku.call, h]

/-- Witness for C7: a 404 response raises with its body, a 200 response
returns its body. -/
theorem transport_status_spec_witness :
    (baseRoku.get "/query/apps" ⟨404, "Not Found"⟩
        = .error (.rokuException "Not Found") ∧
      baseRoku.post "/query/apps" ⟨404, "Not Found"⟩
        = .error (.rokuException "Not Found")) ∧
    (baseRoku.get "/query/apps" ⟨200, "<apps/>"⟩ = .ok "<apps/>" ∧
      baseRoku.post "/query/apps" ⟨200, "<apps/>"⟩ = .ok "<apps/>") :=
  ⟨(transport_status_spec baseRoku "/query/apps" ⟨404, "Not Found"⟩).1 (by decide),
   (transport_status_spec baseRoku "/query/apps" ⟨200, "<apps/>"⟩).2 rfl⟩

/-- C5: a name that is neither in the instance's current `supported_keys`
table nor a sensor group raises `AttributeError` (before any network call:
the error result carries no request); the check is per-instance, so
`channel_up` raises on a base `Roku` but issues a keypress on a `RokuTV`. -/
theorem getattr_unknown_spec :
    (∀ (self : Roku) (name : String) (args : List PyVal),
      self.supported_keys.lookup name = Option.none → ¬ name ∈ SENSORS →
      self.getattr_invoke name args
        = .error (.attributeError (name ++ " is not a valid key or sensor"))) ∧
    baseRoku.getattr_invoke "channel_up" []
      = .error (.attributeError "channel_up is not a valid key or sensor") ∧
    tvRoku.getattr_invoke "channel_up" []
      = .ok [⟨Method.POST, "/keypress/ChannelUp", []⟩] := by
  refine ⟨?_, by decide, by decide⟩
  intro self name args h1 h2
  simp [Roku.getattr_invoke, h1, h2]

/-- Witness for C5: the unknown name `fly` raises on a base device. -/
theorem getattr_unknown_spec_witness :
    baseRoku.getattr_invoke "fly" []
      = .error (.attributeError "fly is not a valid key or sensor") :=
  getattr_unknown_spec.1 baseRoku "fly" [] (by decide) (by decide)

/-- C3: each of the four sensor groups invoked with three numeric arguments
issues exactly one POST to `/input` whose parameters are exactly
`<sensor>.x`, `<sensor>.y`, `<sensor>.z` — and no keypress request. -/
theorem sensor_three_args_spec (self : Roku) (name : String) (x y z : Int)
    (h : name ∈ SENSORS) :
    self.getattr_invoke name [PyVal.num x, PyVal.num y, PyVal.num z]
      = .ok [⟨Method.POST, "/input",
          [(name ++ ".x", PyVal.num x), (name ++ ".y", PyVal.num y),
           (name ++ ".z", PyVal.num z)]⟩] := by
  simp [Roku.getattr_invoke, h, sensorKeys, String.append_assoc]

/-- Witness for C3 at `acceleration` with arguments 1, 2, 3. -/
theorem sensor_three_args_spec_witness :
    baseRoku.getattr_invoke "acceleration" [PyVal.num 1, PyVal.num 2, PyVal.num 3]
      = .ok [⟨Method.POST, "/input",
          [("acceleration.x", PyVal.num 1), ("acceleration.y", PyVal.num 2),
           ("acceleration.z", PyVal.num 3)]⟩] :=
  sensor_three_args_spec baseRoku "acceleration" 1 2 3 (by decide)

/-- C4 counterexample: a sensor invoked with two arguments does not raise;
it issues a POST to `/input` with only two parameters (`dict(zip(...))`
silently truncates), contradicting the claimed arity check. -/
theorem sensor_arity_counterexample :
    baseRoku.getattr_invoke "acceleration" [PyVal.num 1, PyVal.num 2]
      = .ok [⟨Method.POST, "/input",
          [("acceleration.x", PyVal.num 1), ("acceleration.y", PyVal.num 2)]⟩] := by
  decide

/-- C4 amended: a sensor invoked with any argument list raises no error and
issues one POST to `/input` whose parameters are the zip of the three axis
keys with the arguments — fewer arguments give fewer parameters, extra
arguments are dropped. -/
theorem sensor_any_arity_spec (self : Roku) (name : String) (args : List PyVal)
    (h : name ∈ SENSORS) :
    self.getattr_invoke name args
      = .ok [⟨Method.POST, "/input", (sensorKeys name).zip args⟩] := by
  simp [Roku.getattr_invoke, h]

/-- Witness for the amended C4: `acceleration` with four arguments posts
three parameters, the fourth argument dropped. -/
theorem sensor_any_arity_spec_witness :
    baseRoku.getattr_invoke "acceleration"
        [PyVal.num 1, PyVal.num 2, PyVal.num 3, PyVal.num 4]
      = .ok [⟨Method.POST, "/input",
          [("acceleration.x", PyVal.num 1), ("acceleration.y", PyVal.num 2),
           ("acceleration.z", PyVal.num 3)]⟩] :=
  sensor_any_arity_spec baseRoku "acceleration" _ (by decide)

/-- C2 counterexample: the literal command inserts the uppercased character
verbatim — for the character `%` (code 37) the issued path is
`/keypress/Lit_%`, whereas the claimed URL-path-encoding would give
`/keypress/Lit_%25`; the two differ. -/
theorem literal_url_encoding_counterexample :
    baseRoku.getattr_invoke "literal" [PyVal.str "%"]
      = .ok [⟨Method.POST, "/keypress/Lit_%", []⟩] ∧
    "/keypress/Lit_" ++ urlPathEncode (Char.toUpper (Char.ofNat 37)).toString
      = "/keypress/Lit_%25" ∧
    ("/keypress/Lit_%" : String) ≠ "/keypress/Lit_%25" := by
  decide

/-- C2 amended: the literal command issues one `/keypress/` POST per
character of the string, in order, each path being the literal token, an
underscore, and the uppercased character inserted verbatim (no URL
encoding); for `"Hi!"` the three paths end `_H`, `_I`, `_!`. -/
theorem literal_per_char_spec :
    (∀ (self : Roku) (tok : String) (s : String) (rest : List PyVal),
      self.supported_keys.lookup "literal" = some tok →
      self.getattr_invoke "literal" (PyVal.str s :: rest)
        = .ok (s.data.map (fun c =>
            ⟨Method.POST, "/keypress/" ++ tok ++ "_" ++ (Char.toUpper c).toString, []⟩))) ∧
    baseRoku.getattr_invoke "literal" [PyVal.str "Hi!"]
      = .ok [⟨Method.POST, "/keypress/Lit_H", []⟩,
             ⟨Method.POST, "/keypress/Lit_I", []⟩,
             ⟨Method.POST, "/keypress/Lit_!", []⟩] := by
  refine ⟨?_, by decide⟩
  intro self tok s rest h
  simp [Roku.getattr_invoke, h, SENSORS]

/-- Witness for the amended C2: the per-character law applied at `"Hi!"` on
a base device. -/
theorem literal_per_char_spec_witness :
    baseRoku.getattr_invoke "literal" [PyVal.str "Hi!"]
      = .ok (("Hi!").data.map (fun c =>
          ⟨Method.POST, "/keypress/" ++ "Lit" ++ "_" ++ (Char.toUpper c).toString, []⟩)) :=
  literal_per_char_spec.1 baseRoku "Lit" "Hi!" [] rfl

/-- C6: `current_app` prefers the `screensaver` element of the parsed
response, falls back to the `app` element, returns `None` when neither is
present, and every returned `Application` carries the issuing device as its
back-reference. -/
theorem current_app_spec (self : Roku) (resp : ActiveAppResponse) :
    (∀ n, resp.screensaver = some n →
      self.current_app resp
        = some (Application.init (optToPy n.id) (optToPy n.version)
            (optToPy n.text) (some self))) ∧
    (resp.screensaver = Option.none → ∀ n, resp.app = some n →
      self.current_app resp
        = some (Application.init (optToPy n.id) (optToPy n.version)
            (optToPy n.text) (some self))) ∧
    (resp.screensaver = Option.none → resp.app = Option.none →
      self.current_app resp = Option.none) ∧
    (∀ a, self.current_app resp = some a → a.roku = some self) := by
  refine ⟨?_, ?_, ?_, ?_⟩
  · intro n h
    simp [Roku.current_app, h]
  · intro h n h2
    simp [Roku.current_app, h, h2]
  · intro h h2
    simp [Roku.current_app, h, h2]
  · intro a h
    rcases hs : resp.screensaver with _ | n
    · rcases ha : resp.app with _ | m
      · simp [Roku.current_app, hs, ha] at h
      · simp [Roku.current_app, hs, ha] at h
        simp [← h, Application.init]
    · simp [Roku.current_app, hs] at h
      simp [← h, Application.init]

/-- Witness for C6: a response carrying both a screensaver and an app
element yields the screensaver-derived Application. -/
theorem current_app_spec_witness :
    baseRoku.current_app
        ⟨some ⟨some "55545", some "1.0", some "Default screensaver"⟩,
         some ⟨some "12", some "2.0", some "Netflix"⟩⟩
      = some (Application.init (PyVal.str "55545") (PyVal.str "1.0")
          (PyVal.str "Default screensaver") (some baseRoku)) :=
  (current_app_spec baseRoku _).1
    ⟨some "55545", some "1.0", some "Default screensaver"⟩ rfl

end PythonRoku
